import Mathlib

/-!
Shallow embedding of the reverse-tunnel engine of `kernelshard/expose`:
the relay connection-pool client (`internal/provider/localtunnel.go`),
the subprocess provider's Close path (`internal/provider/cloudflare.go`),
the local reverse-proxy manager (`internal/tunnel/manager.go`), and the
lifecycle coordinator (`internal/tunnel/service.go`).

Go `int` values are modelled as `Int`; network effects (HTTP responses,
TCP dial outcomes, conversation outcomes) are inputs to the embedded
functions, so each function is a pure transcription of the Go control
flow over those outcomes.
-/

namespace Expose

/-! ## Relay connection-pool client (localtunnel.go) -/

/-- `clientMaxConn = 10`: the fixed local ceiling on pool size. -/
def clientMaxConn : Int := 10

/-- `localTunnelTCPHost` constant. -/
def localTunnelTCPHost : String := "localtunnel.me"

/-- `TunnelInfo`: the decoded JSON body of the assignment response
`{id, url, port, max_conn_count}`. -/
structure TunnelInfo where
  id : String
  url : String
  port : Int
  maxConn : Int
deriving Repr, DecidableEq

/-- An HTTP response as seen by `requestTunnel`: status code, raw body,
and the result of JSON-decoding the body into `TunnelInfo` (`none` when
the body is not valid JSON for that shape). -/
structure HTTPResponse where
  status : Nat
  body : String
  json : Option TunnelInfo
deriving Repr, DecidableEq

/-- Outcome of `lt.httpClient.Do(req)`: a transport error or a response. -/
inductive HTTPResult where
  | netErr (msg : String)
  | resp (r : HTTPResponse)
deriving Repr, DecidableEq

/-- Errors produced by `requestTunnel`. -/
inductive ReqError where
  | transport (msg : String)
  | badStatus (status : Nat) (body : String)
  | decodeFailed (msg : String)
deriving Repr, DecidableEq

/-- Rendering of a `ReqError`, matching the `fmt.Errorf` formats in the Go code. -/
def ReqError.message : ReqError → String
  | .transport m => m
  | .badStatus s b => "status " ++ toString s ++ ":" ++ b
  | .decodeFailed m => "decode error: " ++ m

/-- The URL `requestTunnel` issues its GET against:
`lt.serverAPIEndpoint + "/?new"`. -/
def requestTunnelURL (endpoint : String) : String := endpoint ++ "/?new"

/-- `requestTunnel`: non-200 status becomes an error carrying status and raw
body; a 200 body that fails to decode becomes a decode error; otherwise the
decoded `TunnelInfo` is returned. The decode-error detail string is the
body's parse failure; we carry the raw body as that detail. -/
def requestTunnel (r : HTTPResult) : Except ReqError TunnelInfo :=
  match r with
  | .netErr m => .error (.transport m)
  | .resp resp =>
    if resp.status ≠ 200 then .error (.badStatus resp.status resp.body)
    else
      match resp.json with
      | none => .error (.decodeFailed resp.body)
      | some info => .ok info

/-- The mutable fields of the `localTunnel` struct (the session state).
Connections are abstract identifiers; `cancelSet` models `lt.cancel != nil`,
`ctxDone` models `lt.ctx.Done()` having fired. -/
structure LTState where
  publicURL : String
  localPort : Int
  tunnelPort : Int
  tunnelHost : String
  connected : Bool
  connections : List Nat
  maxConnections : Int
  cancelSet : Bool
  ctxDone : Bool
deriving Repr, DecidableEq

/-- `NewLocalTunnel`: fresh provider state (empty pool, zero values). -/
def newLocalTunnel : LTState :=
  { publicURL := "", localPort := 0, tunnelPort := 0, tunnelHost := "",
    connected := false, connections := [], maxConnections := 0,
    cancelSet := false, ctxDone := false }

/-- The `maxConnections` computation inside `Connect`:
`info.MaxConn > 0 → min(info.MaxConn, clientMaxConn)`, else `clientMaxConn`. -/
def effectiveMaxConnections (advertisedMax : Int) : Int :=
  if advertisedMax > 0 then min advertisedMax clientMaxConn else clientMaxConn

/-- Outcome of one `dialTunnel` call. -/
inductive DialOutcome where
  | ok (conn : Nat)
  | fail (msg : String)
deriving Repr, DecidableEq

/-- Result of the `openConnections` loop: the pool left in
`lt.connections`, the failure (loop index and dial error) if any, and the
connections closed by `closeAllConnections` on the failure path. -/
structure OpenResult where
  pool : List Nat
  failure : Option (Nat × String)
  closedConns : List Nat
deriving Repr, DecidableEq

/-- The loop body of `openConnections`: `n` iterations remain, `i` is the
loop index, `conns` is the current `lt.connections`. On a dial failure at
index `i`, `closeAllConnections` closes every connection in the slice and
truncates it to empty, and the error `connection i failed: msg` is returned. -/
def openConnectionsGo (dials : Nat → DialOutcome) : Nat → Nat → List Nat → OpenResult
  | 0, _, conns => ⟨conns, none, []⟩
  | n + 1, i, conns =>
    match dials i with
    | .fail msg => ⟨[], some (i, msg), conns⟩
    | .ok c => openConnectionsGo dials n (i + 1) (conns ++ [c])

/-- `openConnections`: runs the dial loop `lt.maxConnections` times starting
from the current pool. -/
def openConnections (st : LTState) (dials : Nat → DialOutcome) :
    LTState × Option (Nat × String) × List Nat :=
  let r := openConnectionsGo dials st.maxConnections.toNat 0 st.connections
  ({ st with connections := r.pool }, r.failure, r.closedConns)

/-- Errors returned by `Connect`: `failed to request tunnel: %w` around a
`ReqError`, or `failed to open connections: %w` around
`connection %d failed: %w`. -/
inductive ConnectError where
  | requestFailed (e : ReqError)
  | openFailed (idx : Nat) (dialMsg : String)
deriving Repr, DecidableEq

/-- Rendering of a `ConnectError`, matching the `fmt.Errorf` wrapping. -/
def ConnectError.message : ConnectError → String
  | .requestFailed e => "failed to request tunnel: " ++ e.message
  | .openFailed i m =>
      "failed to open connections: connection " ++ toString i ++ " failed: " ++ m

/-- `localTunnel.Connect`: store the port and a fresh cancellation scope;
run the assignment handshake; on success store URL/port/host and compute
`maxConnections`; then warm the pool. `connected` is set only after the
whole pool opened. Returns the new state, the result, and the list of
connections closed on the warm-up failure path. -/
def ltConnect (st : LTState) (localPort : Int) (httpResult : HTTPResult)
    (dials : Nat → DialOutcome) : LTState × Except ConnectError String × List Nat :=
  let st1 := { st with localPort := localPort, cancelSet := true, ctxDone := false }
  match requestTunnel httpResult with
  | .error e => (st1, .error (.requestFailed e), [])
  | .ok info =>
    let st2 := { st1 with publicURL := info.url, tunnelPort := info.port,
                          tunnelHost := localTunnelTCPHost,
                          maxConnections := effectiveMaxConnections info.maxConn }
    let r := openConnectionsGo dials st2.maxConnections.toNat 0 st2.connections
    let st3 := { st2 with connections := r.pool }
    match r.failure with
    | some f => (st3, .error (.openFailed f.1 f.2), r.closedConns)
    | none => ({ st3 with connected := true }, .ok info.url, r.closedConns)

/-- `localTunnel.Close`: fire the cancellation scope if present, close and
clear the pool, clear `connected`, and return `nil`. The third component is
the list of connections that got closed. -/
def ltClose (st : LTState) : LTState × Option String × List Nat :=
  let st1 := if st.cancelSet then { st with ctxDone := true } else st
  ({ st1 with connections := [], connected := false }, none, st1.connections)

/-- `localTunnel.IsConnected`. -/
def ltIsConnected (st : LTState) : Bool := st.connected

/-- `localTunnel.PublicURL`. -/
def ltPublicURL (st : LTState) : String := st.publicURL

/-! ## Slot conversation loop (handleConnection / proxyRequest) -/

/-- What happens inside one `proxyRequest` call: either the local dial
fails, or the dial succeeds and the bidirectional copy runs to completion
(`copyErrored` records whether an `io.Copy` direction reported an error —
the Go code discards both copy results). -/
inductive ConvOutcome where
  | localDialFail (msg : String)
  | convDone (copyErrored : Bool)
deriving Repr, DecidableEq

/-- `proxyRequest` return value: an error only when the local dial failed
(`local dial failed: %w`); copy errors are swallowed and `nil` is returned. -/
def proxyRequest (o : ConvOutcome) : Option String :=
  match o with
  | .localDialFail msg => some ("local dial failed: " ++ msg)
  | .convDone _ => none

/-- Observable state of one connection slot's handler goroutine: whether
its `handleConnection` loop is still running, and whether its relay socket
has been closed (the `defer tunnelConn.Close()`). -/
structure SlotState where
  alive : Bool
  connClosed : Bool
deriving Repr, DecidableEq

/-- One iteration of the `handleConnection` loop for a slot, given the
session's `ctx.Done()` flag and the conversation outcome: if the context is
done the loop returns (closing the relay socket); if `proxyRequest` returns
an error the loop returns (closing the relay socket); otherwise the loop
continues to await the next conversation. -/
def slotAfterConv (ctxDone : Bool) (s : SlotState) (o : ConvOutcome) : SlotState :=
  if ctxDone then { s with alive := false, connClosed := true }
  else
    match proxyRequest o with
    | some _ => { s with alive := false, connClosed := true }
    | none => s

/-- Apply one conversation iteration to slot `k` of the slot list, leaving
the other slots alone (each slot's handler goroutine only touches its own
socket and loop). -/
def slotsAfterConv (ctxDone : Bool) (o : ConvOutcome) : List SlotState → Nat → List SlotState
  | [], _ => []
  | s :: rest, 0 => slotAfterConv ctxDone s o :: rest
  | s :: rest, k + 1 => s :: slotsAfterConv ctxDone o rest k

/-- One conversation iteration on slot `k` at session level.
`handleConnection` and `proxyRequest` only read `lt.ctx` and `lt.localPort`
and never write any session field, so the session state passes through
unchanged. -/
def sessionConvStep (st : LTState) (slots : List SlotState) (k : Nat)
    (o : ConvOutcome) : LTState × List SlotState :=
  (st, slotsAfterConv st.ctxDone o slots k)

/-- The connections produced by `k` successful dials starting at loop
index `i`, when dial `j` yields connection `cs j`. -/
def consFrom (cs : Nat → Nat) (i : Nat) : Nat → List Nat
  | 0 => []
  | k + 1 => cs i :: consFrom cs (i + 1) k

/-! ## Subprocess provider Close path (cloudflare.go) -/

/-- The fields of `Cloudflare` relevant to `Close`: whether a live
subprocess handle is held (`cmd != nil && cmd.Process != nil`) and the
public URL. -/
structure CFState where
  cmdPresent : Bool
  publicURL : String
deriving Repr, DecidableEq

/-- `NewCloudFlare`: no subprocess yet, empty URL. -/
def newCloudFlare : CFState := { cmdPresent := false, publicURL := "" }

/-- `Cloudflare.Close`: when a subprocess is held, kill it (the kill result
is returned), clear the handle and the URL; otherwise return `nil`. -/
def cfClose (st : CFState) (killErr : Option String) : CFState × Option String :=
  if st.cmdPresent then ({ cmdPresent := false, publicURL := "" }, killErr)
  else (st, none)

/-! ## Local reverse-proxy handler (manager.go proxyHandler) -/

/-- What the local target produced for one proxied request. -/
structure TargetResponse where
  status : Nat
  headers : List (String × String)
  body : String
deriving Repr, DecidableEq

/-- Outcome of the handler's interactions with the target: the dial can
fail, forwarding the request can fail, reading the response can fail, or a
complete response comes back. -/
inductive ProxyExchange where
  | dialFail
  | writeFail
  | readFail (msg : String)
  | success (resp : TargetResponse)
deriving Repr, DecidableEq

/-- What the caller's `ResponseWriter` ends up holding. -/
structure RecordedResponse where
  status : Nat
  headers : List (String × String)
  body : String
deriving Repr, DecidableEq

/-- Go's `http.Error(w, msg, code)`: sets plain-text headers, the status
code, and writes `msg` followed by a newline. -/
def httpError (msg : String) (code : Nat) : RecordedResponse :=
  { status := code,
    headers := [("Content-Type", "text/plain; charset=utf-8"),
                ("X-Content-Type-Options", "nosniff")],
    body := msg ++ "\n" }

/-- `Manager.proxyHandler`: dial failure → 502 naming the port; forward
failure → 502; read failure → 502 with the underlying error; on a complete
response, copy the target's header fields, status code, and body to the
caller. -/
def proxyHandler (localPort : Int) (x : ProxyExchange) : RecordedResponse :=
  match x with
  | .dialFail =>
      httpError ("Failed to connect localhost:" ++ toString localPort
        ++ " - is your server running?") 502
  | .writeFail => httpError "Failed to forward request" 502
  | .readFail msg =>
      httpError ("Failed to read response from local server: " ++ msg) 502
  | .success resp =>
      { status := resp.status, headers := resp.headers, body := resp.body }

/-! ## Lifecycle coordinator (service.go) -/

/-- Outcome of `provider.Connect` as seen by `Service.Start`. -/
inductive ConnectOutcome where
  | ok (url : String)
  | err (msg : String)
deriving Repr, DecidableEq

/-- Errors returned by `Service.Start` / `Service.WaitReady`. -/
inductive SvcError where
  | alreadyStarted
  | serviceClosed
  | connectFailed (providerName : String) (msg : String)
  | readinessTimeout (ctxErr : String)
deriving Repr, DecidableEq

/-- Rendering of a `SvcError`, matching the `fmt.Errorf` formats. -/
def SvcError.message : SvcError → String
  | .alreadyStarted => "tunnel already started"
  | .serviceClosed => "service is closed"
  | .connectFailed p m => "failed to connect " ++ p ++ " provider tunnel: " ++ m
  | .readinessTimeout e => "tunnel readiness timeout: " ++ e

/-- The `Service` mutable state: `started`, `closed`, and whether the
one-shot readiness channel has been closed. -/
structure ServiceState where
  started : Bool
  closed : Bool
  readyFired : Bool
deriving Repr, DecidableEq

/-- `NewService`: not started, not closed, readiness channel open. -/
def newService : ServiceState := { started := false, closed := false, readyFired := false }

/-- Result of one `Service.Start` call: the new state, the returned error,
and whether `provider.Connect` was invoked. -/
structure StartOut where
  state : ServiceState
  retErr : Option SvcError
  connectCalled : Bool
deriving Repr, DecidableEq

/-- `Service.Start`: fail fast when already started; fail when closed;
otherwise mark `started`, call Connect; on success close the readiness
channel and return `nil`; on failure return the wrapped error and leave
`started` set. -/
def svcStart (s : ServiceState) (providerName : String) (o : ConnectOutcome) : StartOut :=
  if s.started then ⟨s, some .alreadyStarted, false⟩
  else if s.closed then ⟨s, some .serviceClosed, false⟩
  else
    match o with
    | .ok _ => ⟨{ s with started := true, readyFired := true }, none, true⟩
    | .err m => ⟨{ s with started := true }, some (.connectFailed providerName m), true⟩

/-- Result of one `Service.Close` call: the new state, the returned error,
and whether `provider.Close` was invoked. -/
structure CloseOut where
  state : ServiceState
  retErr : Option String
  providerCloseCalled : Bool
deriving Repr, DecidableEq

/-- `Service.Close`: a no-op returning `nil` when already closed; otherwise
mark `closed` and return `provider.Close()`. -/
def svcClose (s : ServiceState) (providerCloseErr : Option String) : CloseOut :=
  if s.closed then ⟨s, none, false⟩
  else ⟨{ s with closed := true }, providerCloseErr, true⟩

/-- `Service.WaitReady(timeout)`: `nil` at once when the provider reports
connected; otherwise `nil` when the readiness channel closes before the
timeout; otherwise the wrapped timeout error. `ctxErr` is the message of
the expired context's error. -/
def svcWaitReady (providerConnected : Bool) (latchFiredBeforeTimeout : Bool)
    (ctxErr : String) : Option SvcError :=
  if providerConnected then none
  else if latchFiredBeforeTimeout then none
  else some (.readinessTimeout ctxErr)

/-- One externally visible call on a `Service`. -/
inductive SvcEvent where
  | startCall (outcome : ConnectOutcome)
  | closeCall (providerCloseErr : Option String)
deriving Repr, DecidableEq

/-- Observation of one call in a trace: which call it was, whether it
returned an error, whether it invoked the provider's Connect or Close, and
whether it fired the readiness latch on this very step. -/
structure StepView where
  isStartCall : Bool
  errored : Bool
  connectCalled : Bool
  providerCloseCalled : Bool
  firedNow : Bool
deriving Repr, DecidableEq

/-- One step of the service trace semantics. -/
def svcStep (pname : String) (s : ServiceState) : SvcEvent → ServiceState × StepView
  | .startCall o =>
    let r := svcStart s pname o
    (r.state, ⟨true, r.retErr.isSome, r.connectCalled, false,
      r.state.readyFired && !s.readyFired⟩)
  | .closeCall e =>
    let r := svcClose s e
    (r.state, ⟨false, r.retErr.isSome, false, r.providerCloseCalled, false⟩)

/-- Run a list of calls against a service, collecting the observations. -/
def svcRun (pname : String) (s : ServiceState) : List SvcEvent → ServiceState × List StepView
  | [] => (s, [])
  | e :: es =>
    let p := svcStep pname s e
    let q := svcRun pname p.1 es
    (q.1, p.2 :: q.2)

/-! ## Helper lemmas -/

theorem consFrom_length (cs : Nat → Nat) : ∀ (k i : Nat), (consFrom cs i k).length = k := by
  intro k
  induction k with
  | zero => intro i; simp [consFrom]
  | succ k ih => intro i; simp [consFrom, ih]

/-- When all `n` dials starting at index `i` succeed, the loop appends the
`n` fresh connections to the pool, reports no failure and closes nothing. -/
theorem openConnectionsGo_all_ok (dials : Nat → DialOutcome) (cs : Nat → Nat) :
    ∀ (n i : Nat) (conns : List Nat),
      (∀ j, j < n → dials (i + j) = .ok (cs (i + j))) →
      openConnectionsGo dials n i conns = ⟨conns ++ consFrom cs i n, none, []⟩ := by
  intro n
  induction n with
  | zero => intro i conns _; simp [openConnectionsGo, consFrom]
  | succ n ih =>
    intro i conns h
    have h0 : dials i = .ok (cs i) := by simpa using h 0 (Nat.succ_pos n)
    have hrest : ∀ j, j < n → dials (i + 1 + j) = .ok (cs (i + 1 + j)) := by
      intro j hj
      have e : i + 1 + j = i + (j + 1) := by omega
      rw [e]; exact h (j + 1) (by omega)
    simp only [openConnectionsGo, h0]
    rw [ih (i + 1) (conns ++ [cs i]) hrest]
    simp [consFrom]

/-- When the dials at indices `i, …, i+k-1` succeed and the dial at index
`i+k` fails (with `k` within the loop bound), the loop empties the pool,
reports the failure at index `i+k`, and closes exactly the pool so far plus
the `k` connections it had opened. -/
theorem openConnectionsGo_fail (dials : Nat → DialOutcome) (cs : Nat → Nat) (msg : String) :
    ∀ (k n i : Nat) (conns : List Nat),
      (∀ j, j < k → dials (i + j) = .ok (cs (i + j))) →
      dials (i + k) = .fail msg → k < n →
      openConnectionsGo dials n i conns = ⟨[], some (i + k, msg), conns ++ consFrom cs i k⟩ := by
  intro k
  induction k with
  | zero =>
    intro n i conns _ hfail hlt
    match n, hlt with
    | m + 1, _ =>
      have h0 : dials i = .fail msg := by simpa using hfail
      simp [openConnectionsGo, h0, consFrom]
  | succ k ih =>
    intro n i conns h hfail hlt
    match n, hlt with
    | m + 1, hlt =>
      have h0 : dials i = .ok (cs i) := by simpa using h 0 (Nat.succ_pos k)
      have hrest : ∀ j, j < k → dials (i + 1 + j) = .ok (cs (i + 1 + j)) := by
        intro j hj
        have e : i + 1 + j = i + (j + 1) := by omega
        rw [e]; exact h (j + 1) (by omega)
      have hfail' : dials (i + 1 + k) = .fail msg := by
        have e : i + 1 + k = i + (k + 1) := by omega
        rw [e]; exact hfail
      simp only [openConnectionsGo, h0]
      rw [ih m (i + 1) (conns ++ [cs i]) hrest hfail' (by omega)]
      have e2 : i + 1 + k = i + (k + 1) := by omega
      simp [consFrom, e2]

/-- A slot other than the one holding the conversation is untouched. -/
theorem slotsAfterConv_getElem_ne (d : Bool) (o : ConvOutcome) :
    ∀ (slots : List SlotState) (k j : Nat), j ≠ k →
      (slotsAfterConv d o slots k)[j]? = slots[j]? := by
  intro slots
  induction slots with
  | nil => intro k j _; simp [slotsAfterConv]
  | cons s rest ih =>
    intro k j hjk
    cases k with
    | zero =>
      cases j with
      | zero => exact absurd rfl hjk
      | succ j => simp [slotsAfterConv]
    | succ k =>
      cases j with
      | zero => simp [slotsAfterConv]
      | succ j => simp [slotsAfterConv, ih k j (by omega)]

theorem svcStep_started_mono (p : String) (s : ServiceState) (e : SvcEvent)
    (h : s.started = true) : (svcStep p s e).1.started = true := by
  cases e with
  | startCall o => simp [svcStep, svcStart, h]
  | closeCall er =>
    simp only [svcStep, svcClose]
    split_ifs
    all_goals simp [h]

theorem svcStep_closed_mono (p : String) (s : ServiceState) (e : SvcEvent)
    (h : s.closed = true) : (svcStep p s e).1.closed = true := by
  cases e with
  | startCall o =>
    cases o <;> simp only [svcStep, svcStart] <;> split_ifs <;> simp_all
  | closeCall er =>
    simp only [svcStep, svcClose]
    split_ifs
    all_goals simp [h]

theorem svcStep_readyFired_mono (p : String) (s : ServiceState) (e : SvcEvent)
    (h : s.readyFired = true) : (svcStep p s e).1.readyFired = true := by
  cases e with
  | startCall o =>
    cases o <;> simp only [svcStep, svcStart] <;> split_ifs <;> simp_all
  | closeCall er =>
    simp only [svcStep, svcClose]
    split_ifs
    all_goals simp [h]

/-- Once `started` is set, no later call invokes the provider's Connect and
every later Start call errors. -/
theorem svcRun_after_started (p : String) :
    ∀ (evs : List SvcEvent) (s : ServiceState), s.started = true →
      ∀ v ∈ (svcRun p s evs).2,
        v.connectCalled = false ∧ (v.isStartCall = true → v.errored = true) := by
  intro evs
  induction evs with
  | nil => intro s _ v hv; simp [svcRun] at hv
  | cons e es ih =>
    intro s hs v hv
    simp only [svcRun, List.mem_cons] at hv
    rcases hv with rfl | hv
    · cases e with
      | startCall o => simp [svcStep, svcStart, hs]
      | closeCall er =>
        simp only [svcStep, svcClose]
        split_ifs <;> simp
    · exact ih (svcStep p s e).1 (svcStep_started_mono p s e hs) v hv

/-- Once `closed` is set, no later call invokes the provider's Close. -/
theorem svcRun_after_closed (p : String) :
    ∀ (evs : List SvcEvent) (s : ServiceState), s.closed = true →
      ∀ v ∈ (svcRun p s evs).2, v.providerCloseCalled = false := by
  intro evs
  induction evs with
  | nil => intro s _ v hv; simp [svcRun] at hv
  | cons e es ih =>
    intro s hs v hv
    simp only [svcRun, List.mem_cons] at hv
    rcases hv with rfl | hv
    · cases e with
      | startCall o => rfl
      | closeCall er => simp [svcStep, svcClose, hs]
    · exact ih (svcStep p s e).1 (svcStep_closed_mono p s e hs) v hv

/-- Once the readiness latch fired, no later step fires it again. -/
theorem svcRun_after_fired (p : String) :
    ∀ (evs : List SvcEvent) (s : ServiceState), s.readyFired = true →
      ∀ v ∈ (svcRun p s evs).2, v.firedNow = false := by
  intro evs
  induction evs with
  | nil => intro s _ v hv; simp [svcRun] at hv
  | cons e es ih =>
    intro s hs v hv
    simp only [svcRun, List.mem_cons] at hv
    rcases hv with rfl | hv
    · cases e with
      | startCall o => simp [svcStep, hs]
      | closeCall er => simp [svcStep]
    · exact ih (svcStep p s e).1 (svcStep_readyFired_mono p s e hs) v hv

/-- A step that fires the latch is a Start call that returned no error and
did invoke the provider's Connect. -/
theorem svcStep_fired_is_successful_start (p : String) (s : ServiceState) (e : SvcEvent)
    (h : (svcStep p s e).2.firedNow = true) :
    (svcStep p s e).2.isStartCall = true ∧ (svcStep p s e).2.errored = false ∧
      (svcStep p s e).2.connectCalled = true := by
  cases e with
  | startCall o =>
    by_cases hst : s.started = true
    · simp [svcStep, svcStart, hst] at h
    · by_cases hcl : s.closed = true
      · simp [svcStep, svcStart, hst, hcl] at h
      · cases o with
        | ok u =>
          simp [svcStep, svcStart, hst, hcl] at h ⊢
        | err m => simp [svcStep, svcStart, hst, hcl] at h
  | closeCall er => simp [svcStep] at h

/-- A step that fires the latch leaves the latch in the fired state. -/
theorem svcStep_fired_ready (p : String) (s : ServiceState) (e : SvcEvent)
    (h : (svcStep p s e).2.firedNow = true) : (svcStep p s e).1.readyFired = true := by
  cases e with
  | startCall o =>
    simp only [svcStep] at h ⊢
    exact (Bool.and_eq_true_iff.mp h).1
  | closeCall er => simp [svcStep] at h

/-- Along any trace, the readiness latch fires at most once. -/
theorem svcRun_fires_le_one (p : String) :
    ∀ (evs : List SvcEvent) (s : ServiceState),
      ((svcRun p s evs).2.countP (fun v => v.firedNow)) ≤ 1 := by
  intro evs
  induction evs with
  | nil => intro s; simp [svcRun]
  | cons e es ih =>
    intro s
    simp only [svcRun, List.countP_cons]
    by_cases hf : (svcStep p s e).2.firedNow = true
    · have hr := svcStep_fired_ready p s e hf
      have hz : ((svcRun p (svcStep p s e).1 es).2.countP (fun v => v.firedNow)) = 0 := by
        rw [List.countP_eq_zero]
        intro v hv
        simp [svcRun_after_fired p es (svcStep p s e).1 hr v hv]
      simp [hf, hz]
    · simp only [Bool.not_eq_true] at hf
      simp [hf]
      exact ih _

/-- Along any trace from a not-yet-started service, the provider's Connect
is invoked at most once. -/
theorem svcRun_connectCalls_le_one (p : String) :
    ∀ (evs : List SvcEvent) (s : ServiceState), s.started = false →
      ((svcRun p s evs).2.countP (fun v => v.connectCalled)) ≤ 1 := by
  intro evs
  induction evs with
  | nil => intro s _; simp [svcRun]
  | cons e es ih =>
    intro s hs
    simp only [svcRun, List.countP_cons]
    cases e with
    | closeCall er =>
      have h1 : (svcStep p s (.closeCall er)).2.connectCalled = false := rfl
      have h2 : (svcStep p s (.closeCall er)).1.started = false := by
        simp only [svcStep, svcClose]
        split_ifs <;> simp [hs]
      simp [h1]
      exact ih _ h2
    | startCall o =>
      by_cases hcl : s.closed = true
      · have h1 : (svcStep p s (.startCall o)).2.connectCalled = false := by
          simp [svcStep, svcStart, hs, hcl]
        have h2 : (svcStep p s (.startCall o)).1.started = false := by
          simp [svcStep, svcStart, hs, hcl]
        simp [h1]
        exact ih _ h2
      · have h2 : (svcStep p s (.startCall o)).1.started = true := by
          cases o <;> simp [svcStep, svcStart, hs, hcl]
        have hz : ((svcRun p (svcStep p s (.startCall o)).1 es).2.countP
            (fun v => v.connectCalled)) = 0 := by
          rw [List.countP_eq_zero]
          intro v hv
          simp [(svcRun_after_started p es _ h2 v hv).1]
        rw [hz]
        split_ifs <;> simp

/-- Along any trace from a not-yet-started service, at most one Start call
returns without error. -/
theorem svcRun_successfulStarts_le_one (p : String) :
    ∀ (evs : List SvcEvent) (s : ServiceState), s.started = false →
      ((svcRun p s evs).2.countP (fun v => v.isStartCall && !v.errored)) ≤ 1 := by
  intro evs
  induction evs with
  | nil => intro s _; simp [svcRun]
  | cons e es ih =>
    intro s hs
    simp only [svcRun, List.countP_cons]
    cases e with
    | closeCall er =>
      have h1 : (svcStep p s (.closeCall er)).2.isStartCall = false := by
        simp [svcStep]
      have h2 : (svcStep p s (.closeCall er)).1.started = false := by
        simp only [svcStep, svcClose]
        split_ifs <;> simp [hs]
      simp [h1]
      exact ih _ h2
    | startCall o =>
      by_cases hcl : s.closed = true
      · have h1 : (svcStep p s (.startCall o)).2.errored = true := by
          simp [svcStep, svcStart, hs, hcl]
        have h2 : (svcStep p s (.startCall o)).1.started = false := by
          simp [svcStep, svcStart, hs, hcl]
        simp [h1]
        exact ih _ h2
      · have h2 : (svcStep p s (.startCall o)).1.started = true := by
          cases o <;> simp [svcStep, svcStart, hs, hcl]
        have hz : ((svcRun p (svcStep p s (.startCall o)).1 es).2.countP
            (fun v => v.isStartCall && !v.errored)) = 0 := by
          rw [List.countP_eq_zero]
          intro v hv
          have hav := svcRun_after_started p es _ h2 v hv
          by_cases hvs : v.isStartCall = true
          · simp [hav.2 hvs]
          · simp only [Bool.not_eq_true] at hvs
            simp [hvs]
        rw [hz]
        split_ifs <;> simp

/-- Along any trace from a not-yet-closed service, the provider's Close is
invoked at most once. -/
theorem svcRun_providerCloses_le_one (p : String) :
    ∀ (evs : List SvcEvent) (s : ServiceState), s.closed = false →
      ((svcRun p s evs).2.countP (fun v => v.providerCloseCalled)) ≤ 1 := by
  intro evs
  induction evs with
  | nil => intro s _; simp [svcRun]
  | cons e es ih =>
    intro s hs
    simp only [svcRun, List.countP_cons]
    cases e with
    | startCall o =>
      have h1 : (svcStep p s (.startCall o)).2.providerCloseCalled = false := rfl
      have h2 : (svcStep p s (.startCall o)).1.closed = false := by
        cases o <;> simp only [svcStep, svcStart] <;> split_ifs <;> simp [hs]
      simp [h1]
      exact ih _ h2
    | closeCall er =>
      have h2 : (svcStep p s (.closeCall er)).1.closed = true := by
        simp [svcStep, svcClose, hs]
      have hz : ((svcRun p (svcStep p s (.closeCall er)).1 es).2.countP
          (fun v => v.providerCloseCalled)) = 0 := by
        rw [List.countP_eq_zero]
        intro v hv
        simp [svcRun_after_closed p es _ h2 v hv]
      rw [hz]
      split_ifs <;> simp

/-- The slot holding the conversation evolves by `slotAfterConv`. -/
theorem slotsAfterConv_getElem_self (d : Bool) (o : ConvOutcome) :
    ∀ (slots : List SlotState) (k : Nat),
      (slotsAfterConv d o slots k)[k]? = (slots[k]?).map (fun s => slotAfterConv d s o) := by
  intro slots
  induction slots with
  | nil => intro k; simp [slotsAfterConv]
  | cons s rest ih =>
    intro k
    cases k with
    | zero => simp [slotsAfterConv]
    | succ k => simp [slotsAfterConv, ih k]

theorem requestTunnel_ok (body : String) (info : TunnelInfo) :
    requestTunnel (.resp ⟨200, body, some info⟩) = .ok info := by
  simp [requestTunnel]

/-! ## Claim theorems -/

/-- C2: for every assignment response, the number of slots the relay client
opens equals `min advertisedMax clientCap` when the advertised
`max_conn_count` is positive, and `clientCap` when it is zero or negative,
with `clientCap` the fixed local ceiling 10; in particular advertised=5
gives 5 and advertised=0 gives 10. -/
theorem C2_effective_max_connections :
    clientMaxConn = 10 ∧
    (∀ adv : Int, adv > 0 → effectiveMaxConnections adv = min adv clientMaxConn) ∧
    (∀ adv : Int, adv ≤ 0 → effectiveMaxConnections adv = clientMaxConn) ∧
    effectiveMaxConnections 5 = 5 ∧ effectiveMaxConnections 0 = 10 ∧
    (∀ (st : LTState) (port : Int) (body : String) (info : TunnelInfo)
        (cs : Nat → Nat) (dials : Nat → DialOutcome),
      st.connections = [] →
      (∀ j, dials j = .ok (cs j)) →
      ((ltConnect st port (.resp ⟨200, body, some info⟩) dials).1.connections).length
        = (effectiveMaxConnections info.maxConn).toNat) := by
  refine ⟨rfl, ?_, ?_, by decide, by decide, ?_⟩
  · intro adv h
    rw [effectiveMaxConnections, if_pos h]
  · intro adv h
    rw [effectiveMaxConnections, if_neg (by omega)]
  · intro st port body info cs dials hconns hdials
    simp only [ltConnect, requestTunnel_ok]
    rw [hconns,
      openConnectionsGo_all_ok dials cs (effectiveMaxConnections info.maxConn).toNat 0 []
        (fun j _ => by simpa using hdials j)]
    simp [consFrom_length]

/-- C2 witness: advertised max 5 with a cap of 10 leads to exactly 5 opened
slots on a fresh provider whose dials all succeed. -/
theorem C2_effective_max_connections_witness :
    ((ltConnect newLocalTunnel 3000
        (.resp ⟨200, "", some ⟨"abc", "https://abc.example.com", 35000, 5⟩⟩)
        (fun j => .ok j)).1.connections).length
      = (effectiveMaxConnections 5).toNat :=
  C2_effective_max_connections.2.2.2.2.2 newLocalTunnel 3000 ""
    ⟨"abc", "https://abc.example.com", 35000, 5⟩ (fun j => j) (fun j => .ok j)
    rfl (fun _ => rfl)

/-- C10: every call to the relay-pool provider's Close — including the very
first and one before Connect — returns nil, and afterwards IsConnected
reports false and the connection slot collection is empty. -/
theorem C10_lt_close_total :
    ∀ st : LTState,
      (ltClose st).2.1 = none ∧
      ltIsConnected (ltClose st).1 = false ∧
      (ltClose st).1.connections = [] :=
  fun _ => ⟨rfl, rfl, rfl⟩

/-- C8: the local reverse-proxy handler answers a failed dial with a 502
whose non-empty body names the unreachable port, and relays a completely
read target response with identical status, headers, and body. -/
theorem C8_proxy_handler :
    ∀ (localPort : Int) (resp : TargetResponse),
      (proxyHandler localPort .dialFail).status = 502 ∧
      0 < (proxyHandler localPort .dialFail).body.length ∧
      (∃ pre post, (proxyHandler localPort .dialFail).body
        = pre ++ toString localPort ++ post) ∧
      proxyHandler localPort (.success resp)
        = ⟨resp.status, resp.headers, resp.body⟩ := by
  intro lp resp
  refine ⟨rfl, ?_, ?_, rfl⟩
  · have h2 : ("Failed to connect localhost:" : String).length = 28 := by decide
    simp only [proxyHandler, httpError, String.length_append]
    omega
  · refine ⟨"Failed to connect localhost:", " - is your server running?" ++ "\n", ?_⟩
    simp [proxyHandler, httpError, String.append_assoc]

/-- C7: the assignment handshake GETs `{endpoint}/?new`; a 200 response
with a decodable JSON body yields the decoded info; a non-200 status yields
an error carrying the status code and the raw body; a 200 response with an
undecodable body yields a decode error; and in every failure case Connect
wraps the handshake error and opens no connection slot. -/
theorem C7_request_tunnel :
    (∀ endpoint : String, requestTunnelURL endpoint = endpoint ++ "/?new") ∧
    (∀ (body : String) (info : TunnelInfo),
      requestTunnel (.resp ⟨200, body, some info⟩) = .ok info) ∧
    (∀ (status : Nat) (body : String) (j : Option TunnelInfo), status ≠ 200 →
      requestTunnel (.resp ⟨status, body, j⟩) = .error (.badStatus status body) ∧
      (ReqError.badStatus status body).message
        = "status " ++ toString status ++ ":" ++ body) ∧
    (∀ body : String,
      requestTunnel (.resp ⟨200, body, none⟩) = .error (.decodeFailed body)) ∧
    (∀ (st : LTState) (port : Int) (r : HTTPResult) (dials : Nat → DialOutcome)
        (e : ReqError), requestTunnel r = .error e →
      (ltConnect st port r dials).2.1 = .error (.requestFailed e) ∧
      (ltConnect st port r dials).1.connections = st.connections ∧
      (ConnectError.requestFailed e).message
        = "failed to request tunnel: " ++ e.message) := by
  refine ⟨fun _ => rfl, requestTunnel_ok, ?_, ?_, ?_⟩
  · intro status body j h
    exact ⟨by simp [requestTunnel, h], rfl⟩
  · intro body
    simp [requestTunnel]
  · intro st port r dials e h
    refine ⟨?_, ?_, rfl⟩ <;> simp [ltConnect, h]

/-- C7 witness: a 500 response with body text is reported with status and
body; concretely the handshake error aborts Connect with no slot opened. -/
theorem C7_request_tunnel_witness :
    requestTunnel (.resp ⟨500, "internal server error", none⟩)
      = .error (.badStatus 500 "internal server error") ∧
    (ltConnect newLocalTunnel 3000 (.resp ⟨500, "internal server error", none⟩)
      (fun j => .ok j)).1.connections = [] :=
  ⟨(C7_request_tunnel.2.2.1 500 "internal server error" none (by decide)).1,
    (C7_request_tunnel.2.2.2.2 newLocalTunnel 3000
      (.resp ⟨500, "internal server error", none⟩) (fun j => .ok j)
      (.badStatus 500 "internal server error")
      ((C7_request_tunnel.2.2.1 500 "internal server error" none (by decide)).1)).2.1⟩

/-- C1: pool warm-up is all-or-nothing. For a fresh session whose
assignment handshake succeeded, if dial `i` of the `effectiveMax` slot
dials fails, Connect returns an error wrapping that dial failure, the
slots `0..i-1` already opened are exactly the ones closed, the slot
collection is left empty, and the connected flag stays false. -/
theorem C1_warmup_all_or_nothing :
    ∀ (st : LTState) (port : Int) (body : String) (info : TunnelInfo)
      (cs : Nat → Nat) (dials : Nat → DialOutcome) (i : Nat) (msg : String),
      st.connections = [] → st.connected = false →
      (∀ j, j < i → dials j = .ok (cs j)) →
      dials i = .fail msg →
      i < (effectiveMaxConnections info.maxConn).toNat →
      (ltConnect st port (.resp ⟨200, body, some info⟩) dials).2.1
          = .error (.openFailed i msg) ∧
      (ltConnect st port (.resp ⟨200, body, some info⟩) dials).2.2 = consFrom cs 0 i ∧
      (ltConnect st port (.resp ⟨200, body, some info⟩) dials).1.connections = [] ∧
      ltIsConnected (ltConnect st port (.resp ⟨200, body, some info⟩) dials).1
          = false := by
  intro st port body info cs dials i msg hconns hconn hok hfail hlt
  have hok0 : ∀ j, j < i → dials (0 + j) = .ok (cs (0 + j)) := by
    intro j hj; simpa using hok j hj
  have hfail0 : dials (0 + i) = .fail msg := by simpa using hfail
  have hgo := openConnectionsGo_fail dials cs msg i
    (effectiveMaxConnections info.maxConn).toNat 0 [] hok0 hfail0 hlt
  simp only [ltConnect, requestTunnel_ok]
  rw [hconns, hgo]
  simp [ltIsConnected, hconn]

/-- C1 witness: with 3 effective slots, dial 0 succeeding and dial 1
failing, Connect fails wrapping the dial error at index 1, slot 0 is
closed, the pool is empty, and the session is not connected. -/
theorem C1_warmup_all_or_nothing_witness :
    (ltConnect newLocalTunnel 3000
        (.resp ⟨200, "", some ⟨"abc", "https://abc.loca.lt", 35000, 3⟩⟩)
        (fun j => if j = 0 then .ok 7 else .fail "connection refused")).2.1
      = .error (.openFailed 1 "connection refused") ∧
    (ltConnect newLocalTunnel 3000
        (.resp ⟨200, "", some ⟨"abc", "https://abc.loca.lt", 35000, 3⟩⟩)
        (fun j => if j = 0 then .ok 7 else .fail "connection refused")).2.2
      = consFrom (fun _ => 7) 0 1 ∧
    (ltConnect newLocalTunnel 3000
        (.resp ⟨200, "", some ⟨"abc", "https://abc.loca.lt", 35000, 3⟩⟩)
        (fun j => if j = 0 then .ok 7 else .fail "connection refused")).1.connections
      = [] ∧
    ltIsConnected (ltConnect newLocalTunnel 3000
        (.resp ⟨200, "", some ⟨"abc", "https://abc.loca.lt", 35000, 3⟩⟩)
        (fun j => if j = 0 then .ok 7 else .fail "connection refused")).1 = false :=
  C1_warmup_all_or_nothing newLocalTunnel 3000 ""
    ⟨"abc", "https://abc.loca.lt", 35000, 3⟩ (fun _ => 7)
    (fun j => if j = 0 then .ok 7 else .fail "connection refused") 1 "connection refused"
    rfl rfl
    (fun j hj => by
      have hj0 : j = 0 := by omega
      subst hj0; rfl)
    (by decide) (by decide)

/-- C6 counterexample: after an assignment handshake that succeeded with
URL `https://abc.loca.lt` followed by a warm-up whose first dial fails,
`IsConnected()` reports false while `PublicURL()` returns that URL, which
is not empty — contradicting the claim that `PublicURL()` is empty at
every point where `IsConnected()` reports false. -/
theorem C6_public_url_counterexample :
    ltIsConnected (ltConnect newLocalTunnel 3000
        (.resp ⟨200, "", some ⟨"abc", "https://abc.loca.lt", 35000, 1⟩⟩)
        (fun _ => .fail "connection refused")).1 = false ∧
    ltPublicURL (ltConnect newLocalTunnel 3000
        (.resp ⟨200, "", some ⟨"abc", "https://abc.loca.lt", 35000, 1⟩⟩)
        (fun _ => .fail "connection refused")).1 = "https://abc.loca.lt" ∧
    ("https://abc.loca.lt" : String) ≠ "" := by
  exact ⟨rfl, rfl, by decide⟩

/-- C6 amended: `PublicURL()` is empty before Connect and after a Connect
whose assignment handshake failed; after a Connect whose handshake
succeeded, `PublicURL()` returns the assigned URL — even when pool warm-up
then failed and `IsConnected()` still reports false. -/
theorem C6_public_url_amended :
    ltPublicURL newLocalTunnel = "" ∧
    ltIsConnected newLocalTunnel = false ∧
    (∀ (port : Int) (r : HTTPResult) (dials : Nat → DialOutcome) (e : ReqError),
      requestTunnel r = .error e →
      ltPublicURL (ltConnect newLocalTunnel port r dials).1 = "" ∧
      ltIsConnected (ltConnect newLocalTunnel port r dials).1 = false) ∧
    (∀ (st : LTState) (port : Int) (body : String) (info : TunnelInfo)
        (dials : Nat → DialOutcome),
      ltPublicURL (ltConnect st port (.resp ⟨200, body, some info⟩) dials).1
        = info.url) := by
  refine ⟨rfl, rfl, ?_, ?_⟩
  · intro port r dials e h
    constructor <;> simp [ltConnect, h, ltPublicURL, ltIsConnected, newLocalTunnel]
  · intro st port body info dials
    simp only [ltConnect, requestTunnel_ok, ltPublicURL]
    split <;> rfl

/-- C6 amended witness: a handshake refused at transport level leaves the
URL empty; the counterexample input above yields the assigned URL. -/
theorem C6_public_url_amended_witness :
    ltPublicURL (ltConnect newLocalTunnel 3000 (.netErr "no route to host")
      (fun _ => .fail "x")).1 = "" ∧
    ltPublicURL (ltConnect newLocalTunnel 3000
        (.resp ⟨200, "", some ⟨"abc", "https://abc.loca.lt", 35000, 1⟩⟩)
        (fun _ => .fail "connection refused")).1 = "https://abc.loca.lt" :=
  ⟨(C6_public_url_amended.2.2.1 3000 (.netErr "no route to host")
      (fun _ => .fail "x") (.transport "no route to host") rfl).1,
    C6_public_url_amended.2.2.2 newLocalTunnel 3000 ""
      ⟨"abc", "https://abc.loca.lt", 35000, 1⟩ (fun _ => .fail "connection refused")⟩

/-- C9 counterexample: a conversation whose bidirectional copy errored
(`copyErrored = true`) produces no error from `proxyRequest` (both
`io.Copy` results are discarded), and the slot's loop does not exit and its
relay socket is not closed — contradicting the claim that a copy error
makes the slot's loop exit and closes its relay socket. -/
theorem C9_slot_isolation_counterexample :
    proxyRequest (.convDone true) = none ∧
    slotAfterConv false ⟨true, false⟩ (.convDone true) = ⟨true, false⟩ :=
  ⟨rfl, rfl⟩

/-- C9 amended: conversation outcomes are isolated to their own slot. A
local dial failure makes only that slot's loop exit and closes only that
slot's relay socket; a completed conversation — even one whose copy
errored — leaves the slot looping for its next conversation; in every case
the session state (connected flag, public URL, slot collection) and all
sibling slots are untouched. -/
theorem C9_slot_isolation_amended :
    (∀ (st : LTState) (slots : List SlotState) (k : Nat) (o : ConvOutcome),
      (sessionConvStep st slots k o).1 = st) ∧
    (∀ (st : LTState) (slots : List SlotState) (k j : Nat) (o : ConvOutcome),
      j ≠ k → ((sessionConvStep st slots k o).2)[j]? = slots[j]?) ∧
    (∀ (st : LTState) (slots : List SlotState) (k : Nat) (msg : String),
      st.ctxDone = false →
      ((sessionConvStep st slots k (.localDialFail msg)).2)[k]?
        = (slots[k]?).map (fun _ => ⟨false, true⟩)) ∧
    (∀ (st : LTState) (slots : List SlotState) (k : Nat) (copyErrored : Bool),
      st.ctxDone = false →
      ((sessionConvStep st slots k (.convDone copyErrored)).2)[k]? = slots[k]?) := by
  refine ⟨fun _ _ _ _ => rfl, ?_, ?_, ?_⟩
  · intro st slots k j o hjk
    exact slotsAfterConv_getElem_ne st.ctxDone o slots k j hjk
  · intro st slots k msg hd
    rw [sessionConvStep, hd, slotsAfterConv_getElem_self]
    rfl
  · intro st slots k b hd
    rw [sessionConvStep, hd, slotsAfterConv_getElem_self]
    cases slots[k]? <;> rfl

/-- C9 amended witness: with two live slots and the context not cancelled,
a dial failure on slot 0 kills slot 0 and closes its socket, leaves slot 1
untouched, and leaves the session state unchanged. -/
theorem C9_slot_isolation_amended_witness :
    (sessionConvStep newLocalTunnel [⟨true, false⟩, ⟨true, false⟩] 0
        (.localDialFail "connection refused")).1 = newLocalTunnel ∧
    ((sessionConvStep newLocalTunnel [⟨true, false⟩, ⟨true, false⟩] 0
        (.localDialFail "connection refused")).2)[1]?
      = some ⟨true, false⟩ ∧
    ((sessionConvStep newLocalTunnel [⟨true, false⟩, ⟨true, false⟩] 0
        (.localDialFail "connection refused")).2)[0]?
      = some ⟨false, true⟩ :=
  ⟨C9_slot_isolation_amended.1 newLocalTunnel [⟨true, false⟩, ⟨true, false⟩] 0
      (.localDialFail "connection refused"),
    C9_slot_isolation_amended.2.1 newLocalTunnel [⟨true, false⟩, ⟨true, false⟩] 0 1
      (.localDialFail "connection refused") (by decide),
    C9_slot_isolation_amended.2.2.1 newLocalTunnel [⟨true, false⟩, ⟨true, false⟩] 0
      "connection refused" rfl⟩

/-- C3: the Service lifecycle state machine. A Start on a started service
fails with the "already started" condition without calling Connect; a Start
on a closed (never started) service fails with the distinct closed
condition; a first Start marks `started` and calls Connect; on Connect
failure the wrapped error is returned with `started` left true; along any
trace from a not-yet-started service Connect is invoked at most once and at
most one Start call succeeds, and once started every later Start call
errors. -/
theorem C3_service_start_state_machine :
    (∀ (s : ServiceState) (p : String) (o : ConnectOutcome), s.started = true →
      (svcStart s p o).retErr = some .alreadyStarted ∧
      (svcStart s p o).connectCalled = false ∧
      (svcStart s p o).state = s) ∧
    (∃ pre post, SvcError.alreadyStarted.message = pre ++ "already started" ++ post) ∧
    (∀ (s : ServiceState) (p : String) (o : ConnectOutcome),
      s.started = false → s.closed = true →
      (svcStart s p o).retErr = some .serviceClosed ∧
      (svcStart s p o).connectCalled = false) ∧
    SvcError.serviceClosed.message ≠ SvcError.alreadyStarted.message ∧
    (∀ (s : ServiceState) (p u : String),
      s.started = false → s.closed = false →
      (svcStart s p (.ok u)).state.started = true ∧
      (svcStart s p (.ok u)).connectCalled = true ∧
      (svcStart s p (.ok u)).retErr = none) ∧
    (∀ (s : ServiceState) (p m : String),
      s.started = false → s.closed = false →
      (svcStart s p (.err m)).retErr = some (.connectFailed p m) ∧
      (svcStart s p (.err m)).state.started = true ∧
      (SvcError.connectFailed p m).message
        = "failed to connect " ++ p ++ " provider tunnel: " ++ m) ∧
    (∀ (p : String) (evs : List SvcEvent) (s : ServiceState), s.started = false →
      ((svcRun p s evs).2.countP (fun v => v.connectCalled)) ≤ 1 ∧
      ((svcRun p s evs).2.countP (fun v => v.isStartCall && !v.errored)) ≤ 1) ∧
    (∀ (p : String) (evs : List SvcEvent) (s : ServiceState), s.started = true →
      ∀ v ∈ (svcRun p s evs).2, v.isStartCall = true → v.errored = true) := by
  refine ⟨?_, ⟨"tunnel ", "", by decide⟩, ?_, by decide, ?_, ?_, ?_, ?_⟩
  · intro s p o h
    exact ⟨by simp [svcStart, h], by simp [svcStart, h], by simp [svcStart, h]⟩
  · intro s p o h1 h2
    exact ⟨by simp [svcStart, h1, h2], by simp [svcStart, h1, h2]⟩
  · intro s p u h1 h2
    exact ⟨by simp [svcStart, h1, h2], by simp [svcStart, h1, h2],
      by simp [svcStart, h1, h2]⟩
  · intro s p m h1 h2
    exact ⟨by simp [svcStart, h1, h2], by simp [svcStart, h1, h2], rfl⟩
  · intro p evs s h
    exact ⟨svcRun_connectCalls_le_one p evs s h, svcRun_successfulStarts_le_one p evs s h⟩
  · intro p evs s h v hv hsv
    exact (svcRun_after_started p evs s h v hv).2 hsv

/-- C3 witness: concrete second-start refusal, closed-service refusal, a
successful fresh start, a failed fresh start leaving `started`, and a
two-start trace making at most one Connect call. -/
theorem C3_service_start_state_machine_witness :
    (svcStart ⟨true, false, true⟩ "MockProvider" (.ok "u")).retErr
      = some .alreadyStarted ∧
    (svcStart ⟨false, true, false⟩ "MockProvider" (.ok "u")).retErr
      = some .serviceClosed ∧
    (svcStart newService "MockProvider" (.ok "https://abc123.example.com")).retErr
      = none ∧
    (svcStart newService "MockProvider" (.err "dial failed")).state.started = true ∧
    ((svcRun "MockProvider" newService
        [.startCall (.ok "u"), .startCall (.ok "u")]).2.countP
          (fun v => v.connectCalled)) ≤ 1 :=
  ⟨(C3_service_start_state_machine.1 ⟨true, false, true⟩ "MockProvider" (.ok "u") rfl).1,
    (C3_service_start_state_machine.2.2.1 ⟨false, true, false⟩ "MockProvider"
      (.ok "u") rfl rfl).1,
    (C3_service_start_state_machine.2.2.2.2.1 newService "MockProvider"
      "https://abc123.example.com" rfl rfl).2.2,
    (C3_service_start_state_machine.2.2.2.2.2.1 newService "MockProvider"
      "dial failed" rfl rfl).2.1,
    (C3_service_start_state_machine.2.2.2.2.2.2.1 "MockProvider"
      [.startCall (.ok "u"), .startCall (.ok "u")] newService rfl).1⟩

/-- C4: Service.Close is idempotent. The first Close marks `closed` and
delegates to the provider's Close, returning its result; every later Close
returns nil without touching the provider; along any trace the provider's
Close runs at most once; and Close before Start returns nil with the core
providers, whose Close before Connect returns nil (the relay-pool
provider's Close always returns nil, and the subprocess provider's Close
with no live process returns nil). -/
theorem C4_service_close_idempotent :
    (∀ (s : ServiceState) (e : Option String), s.closed = false →
      (svcClose s e).state.closed = true ∧
      (svcClose s e).providerCloseCalled = true ∧
      (svcClose s e).retErr = e) ∧
    (∀ (s : ServiceState) (e : Option String), s.closed = true →
      (svcClose s e).retErr = none ∧
      (svcClose s e).providerCloseCalled = false ∧
      (svcClose s e).state = s) ∧
    (∀ (p : String) (evs : List SvcEvent) (s : ServiceState), s.closed = false →
      ((svcRun p s evs).2.countP (fun v => v.providerCloseCalled)) ≤ 1) ∧
    (∀ st : LTState, (ltClose st).2.1 = none) ∧
    (∀ e : Option String, (cfClose newCloudFlare e).2 = none) ∧
    (svcClose newService none).retErr = none := by
  refine ⟨?_, ?_, svcRun_providerCloses_le_one, fun _ => rfl, fun e => rfl, rfl⟩
  · intro s e h
    exact ⟨by simp [svcClose, h], by simp [svcClose, h], by simp [svcClose, h]⟩
  · intro s e h
    exact ⟨by simp [svcClose, h], by simp [svcClose, h], by simp [svcClose, h]⟩

/-- C4 witness: first Close on a fresh service delegates and marks closed;
a second Close is a provider-untouched no-op returning nil; a trace with
two Close calls invokes the provider's Close at most once. -/
theorem C4_service_close_idempotent_witness :
    (svcClose newService none).state.closed = true ∧
    (svcClose ⟨true, true, true⟩ (some "boom")).retErr = none ∧
    (svcClose ⟨true, true, true⟩ (some "boom")).providerCloseCalled = false ∧
    ((svcRun "MockProvider" newService
        [.closeCall none, .closeCall none]).2.countP
          (fun v => v.providerCloseCalled)) ≤ 1 :=
  ⟨(C4_service_close_idempotent.1 newService none rfl).1,
    (C4_service_close_idempotent.2.1 ⟨true, true, true⟩ (some "boom") rfl).1,
    (C4_service_close_idempotent.2.1 ⟨true, true, true⟩ (some "boom") rfl).2.1,
    C4_service_close_idempotent.2.2.1 "MockProvider"
      [.closeCall none, .closeCall none] newService rfl⟩

/-- C5: the readiness latch fires at most once along any trace, and a step
that fires it is a Start call that invoked the provider's Connect and
returned no error; WaitReady returns nil at once when the provider reports
connected, returns nil once the latch has fired, and otherwise returns the
error wrapping the distinguishable timeout condition. -/
theorem C5_readiness_latch :
    (∀ (p : String) (evs : List SvcEvent) (s : ServiceState),
      ((svcRun p s evs).2.countP (fun v => v.firedNow)) ≤ 1) ∧
    (∀ (p : String) (s : ServiceState) (e : SvcEvent),
      (svcStep p s e).2.firedNow = true →
      (svcStep p s e).2.isStartCall = true ∧ (svcStep p s e).2.errored = false ∧
        (svcStep p s e).2.connectCalled = true) ∧
    (∀ (b : Bool) (ce : String), svcWaitReady true b ce = none) ∧
    (∀ ce : String, svcWaitReady false true ce = none) ∧
    (∀ ce : String, svcWaitReady false false ce = some (.readinessTimeout ce) ∧
      (SvcError.readinessTimeout ce).message = "tunnel readiness timeout: " ++ ce) :=
  ⟨fun p evs s => svcRun_fires_le_one p evs s,
    svcStep_fired_is_successful_start,
    fun _ _ => rfl, fun _ => rfl, fun _ => ⟨rfl, rfl⟩⟩

/-- C5 witness: the successful first Start on a fresh service fires the
latch, and that firing step is a non-erroring Start that called Connect. -/
theorem C5_readiness_latch_witness :
    (svcStep "MockProvider" newService (.startCall (.ok "u"))).2.firedNow = true ∧
    (svcStep "MockProvider" newService (.startCall (.ok "u"))).2.errored = false ∧
    svcWaitReady false false "context deadline exceeded"
      = some (.readinessTimeout "context deadline exceeded") :=
  ⟨rfl,
    (C5_readiness_latch.2.1 "MockProvider" newService (.startCall (.ok "u")) rfl).2.1,
    (C5_readiness_latch.2.2.2.2 "context deadline exceeded").1⟩

end Expose
